import Mathlib

/-!
# Wrappers of BatchImpl and AsyncNdbContext

A shallow embedding of `BatchImpl_wrapper.cpp` and `AsyncNdbContext_wrapper.cpp`
(jones-ndb/impl/src/ndb).  The managed heap, the set of allocated native objects, the
collector registrations, the queue of asynchronous call descriptors and the sequence of
native operations are explicit state; every wrapper function returns its result together
with the state it leaves.
-/

namespace JonesNdb

/-- A native address; `0` is the null pointer. -/
abbrev Ptr := Nat

/-- The fields of the `NdbError` of NdbApi that the wrappers read or hand on. -/
structure NdbError where
  code : Int
  classification : Int
  message : String
deriving DecidableEq, Repr

/-- The two envelopes (`Envelope("BatchImpl")`, `Envelope("AsyncNdbContext")`). -/
inductive Envelope where
  | BatchImplEnvelope
  | AsyncNdbContextEnvelope
deriving DecidableEq, Repr

/-- Values of the scripting runtime that cross the wrappers.  Numbers are restricted to
integers; `object` and `function` carry the heap index of the object;
`ndbError` is the object built by `NdbError_Wrapper`. -/
inductive JsValue where
  | undefined
  | null
  | bool (b : Bool)
  | int (i : Int)
  | object (id : Nat)
  | function (id : Nat)
  | ndbError (e : NdbError)
deriving DecidableEq, Repr

/-- A wrapper object of the managed heap: internal field 0 names the envelope, internal
field 1 holds the native pointer. -/
structure JsObject where
  envelope : Option Envelope
  pointer : Ptr
deriving DecidableEq, Repr

/-- Native member functions reached through the wrappers. -/
inductive NativeOp where
  | getError
  | tryImmediateStartTransaction
  | execute
  | executeAsynch
  | readBlobResults
  | registerClosedTransaction
  | shutdown
  | newAsyncNdbContext
deriving DecidableEq, Repr

/-- What happens, in order: a native member function invoked on an object with integer
arguments, or the completion callback of an asynchronous call invoked with the error slot
and the return value of its descriptor. -/
inductive Event where
  | native (op : NativeOp) (obj : Ptr) (args : List Int)
  | callback (fn : JsValue) (error : Option NdbError) (return_val : Int)
deriving DecidableEq, Repr

/-- The function an asynchronous or immediate call uses to classify its return value
(`errorHandler`); a null function pointer is `none` of the option. -/
inductive ErrorHandler where
  | getNdbErrorIfLessThanZero
deriving DecidableEq, Repr

/-- The call descriptor `NativeMethodCall_3_<int, BatchImpl, int, int, int>` and
`NativeMethodCall_4_<int, BatchImpl, int, int, int, Handle<Function>>`: the target object,
the three converted integer arguments, the fourth value of the call (the completion
callback of `execute`, the function argument of `executeAsynch`), the error handler, and
the result slots. -/
structure MethodCall where
  native_obj : Ptr
  arg0 : Int
  arg1 : Int
  arg2 : Int
  callback : JsValue
  errorHandler : Option ErrorHandler
  return_val : Int
  error : Option NdbError
deriving DecidableEq, Repr

/-- The state the wrappers act on. -/
structure World where
  /-- the managed heap; an object is addressed by its index -/
  heap : List JsObject
  /-- the native objects that are allocated and not yet deleted -/
  live : List Ptr
  /-- the registrations made by `freeFromGC(ptr, obj)`: native pointer and heap index -/
  gc : List (Ptr × Nat)
  /-- the descriptors handed to `runAsync` and not yet completed -/
  pending : List MethodCall
  /-- the native operations and callbacks so far, oldest first -/
  trace : List Event
deriving DecidableEq, Repr

/-- Ways a call ends without a value. -/
inductive Failure where
  /-- the exception thrown by `REQUIRE_ARGS_LENGTH` -/
  | marshalError
  /-- the rejection of `REQUIRE_CONSTRUCTOR_CALL` -/
  | notConstructorCall
  /-- a C `assert` whose condition is false -/
  | assertionFailed
  /-- a member access through the null pointer -/
  | nullDereference
  /-- a member access through, or a second `delete` of, a pointer already deleted -/
  | useAfterFree
deriving DecidableEq, Repr

/-- The result of a call: a value, or a failure. -/
inductive Outcome (α : Type) where
  | ok (v : α)
  | fail (f : Failure)
deriving DecidableEq, Repr

/-- The result of a wrapper function and the state it leaves. -/
structure Ret (α : Type) where
  result : Outcome α
  world : World
deriving DecidableEq, Repr

/-- The `Arguments` of a call: the object the method is invoked on, the argument values,
and whether the call is a constructor call. -/
structure Arguments where
  holder : Nat
  argv : List JsValue
  isConstructCall : Bool
deriving DecidableEq, Repr

/-- The value of `args[i]`: the runtime yields undefined past the end of the list. -/
def Arguments.get (args : Arguments) (i : Nat) : JsValue :=
  args.argv.getD i JsValue.undefined

/-- The value of `args.Length()`. -/
def Arguments.Length (args : Arguments) : Nat :=
  args.argv.length

/-- The conversion `Int32Value()` of the runtime: an integer is reduced modulo 2^32 into the signed 32-bit
range, true is 1, everything else that is not a number is 0. -/
def Int32Value : JsValue → Int
  | JsValue.int i => (i + 2 ^ 31) % 2 ^ 32 - 2 ^ 31
  | JsValue.bool true => 1
  | _ => 0

/-- The results of the native member functions of `BatchImpl` and of NdbApi that the
wrappers call; `BatchImpl.h` is not among the sources, so they are parameters. -/
structure NativeApi where
  /-- the value of `BatchImpl::getError(n)`: the error of operation `n`, `none` for the
  null pointer -/
  getError : Ptr → Int → Option NdbError
  /-- the value of `BatchImpl::tryImmediateStartTransaction()` -/
  tryImmediateStartTransaction : Ptr → Bool
  /-- the value of `BatchImpl::execute(execType, abortOption, forceSend)` -/
  execute : Ptr → Int → Int → Int → Int
  /-- the value of `BatchImpl::executeAsynch(execType, abortOption, forceSend, callback)` -/
  executeAsynch : Ptr → Int → Int → Int → JsValue → Int
  /-- the value of `BatchImpl::getKeyOperation(n)->readBlobResults()` -/
  readBlobResults : Ptr → Int → JsValue
  /-- the value of `BatchImpl::getNdbError()`, read by the error handler -/
  getNdbError : Ptr → NdbError

/-- The constant `NdbTransaction::NoCommit` of the enumeration `ExecType` in NdbApi
(`NoExecTypeDef = -1, Prepare, NoCommit, Commit, Rollback`). -/
def NdbTransaction.NoCommit : Int := 1

/-! ## Helpers of the wrapper layer -/

/-- Modelled from the spec: `Envelope::newWrapper()` of js_wrapper_macros.h, which is not
among the sources ("binds a new managed-heap handle object"): a new object is allocated on
the managed heap, with no envelope and the null pointer; its index is returned. -/
def newWrapper (w : World) : Nat × World :=
  (w.heap.length, { w with heap := w.heap ++ [{ envelope := none, pointer := 0 }] })

/-- Modelled from the spec: `wrapPointerInObject(ptr, env, obj)` of js_wrapper_macros.h,
which is not among the sources ("replaces the binding"): the two internal fields of the
object are set to the envelope and the pointer; nothing is allocated. -/
def wrapPointerInObject (ptr : Ptr) (env : Envelope) (obj : Nat) (w : World) : World :=
  { w with heap := w.heap.set obj { envelope := some env, pointer := ptr } }

/-- Modelled from the spec: `unwrapPointer<T>(obj)` of js_wrapper_macros.h, which is not
among the sources: the pointer stored in the object is read and returned as it is, the
null pointer included (`BatchImpl_Recycle` unwraps a pointer and compares it with 0
afterwards). -/
def unwrapPointer (w : World) (obj : Nat) : Ptr :=
  (w.heap.getD obj { envelope := none, pointer := 0 }).pointer

/-- Modelled from the spec: `freeFromGC(ptr, obj)` of js_wrapper_macros.h, which is not
among the sources ("collector-triggered release"): the pair of pointer and object is
recorded, so that the collector releases `ptr` when it reclaims `obj`. -/
def freeFromGC (ptr : Ptr) (obj : Nat) (w : World) : World :=
  { w with gc := w.gc ++ [(ptr, obj)] }

/-- Modelled from the spec: the macro `REQUIRE_ARGS_LENGTH(N)` of js_wrapper_macros.h,
which is not among the sources ("MarshalError: wrong argument count supplied to a call"):
the check passes exactly when the call has `N` arguments. -/
def REQUIRE_ARGS_LENGTH (args : Arguments) (N : Nat) : Bool :=
  args.Length == N

/-- Modelled from the spec: the macro `REQUIRE_CONSTRUCTOR_CALL()` of js_wrapper_macros.h,
which is not among the sources: the check passes exactly when the call is a constructor
call. -/
def REQUIRE_CONSTRUCTOR_CALL (args : Arguments) : Bool :=
  args.isConstructCall

/-- A member access `p->...`: the null pointer and a deleted object have no members. -/
def access (w : World) (p : Ptr) : Option Failure :=
  if p = 0 then some Failure.nullDereference
  else if p ∈ w.live then none
  else some Failure.useAfterFree

/-- The C++ `delete p`: nothing for the null pointer, the object is released when it is
allocated, and a second delete of the same object is a failure. -/
def delete (w : World) (p : Ptr) : Ret Unit :=
  if p = 0 then ⟨Outcome.ok (), w⟩
  else if p ∈ w.live then ⟨Outcome.ok (), { w with live := w.live.filter (fun q => q ≠ p) }⟩
  else ⟨Outcome.fail Failure.useAfterFree, w⟩

/-- The address a C++ `new` returns: not null and not the address of an allocated
object. -/
def freshAddr (w : World) : Ptr :=
  w.live.foldr max 0 + 1

/-- The state with one more event at the end of the trace. -/
def World.log (w : World) (e : Event) : World :=
  { w with trace := w.trace ++ [e] }

/-! ## BatchImpl_wrapper.cpp -/

/-- The function `BatchImpl_Wrapper(BatchImpl *set)`. -/
def BatchImpl_Wrapper (w : World) (set : Ptr) : Ret JsValue :=
  if set ≠ 0 then
    let jsobj := (newWrapper w).1
    let w1 := (newWrapper w).2
    let w2 := wrapPointerInObject set Envelope.BatchImplEnvelope jsobj w1
    let w3 := freeFromGC set jsobj w2
    ⟨Outcome.ok (JsValue.object jsobj), w3⟩
  else ⟨Outcome.ok JsValue.null, w⟩

/-- The function `BatchImpl_Recycle(Handle<Object> oldWrapper, BatchImpl *newSet)`; the
two `assert`s are C assertions, active since the sources never define `NDEBUG`. -/
def BatchImpl_Recycle (w : World) (oldWrapper : Nat) (newSet : Ptr) : Ret JsValue :=
  if newSet = 0 then ⟨Outcome.fail Failure.assertionFailed, w⟩
  else
    let oldSet := unwrapPointer w oldWrapper
    if oldSet ≠ 0 then ⟨Outcome.fail Failure.assertionFailed, w⟩
    else
      ⟨Outcome.ok (JsValue.object oldWrapper),
        wrapPointerInObject newSet Envelope.BatchImplEnvelope oldWrapper w⟩

/-- The function `getWrappedObject(BatchImpl *set)`. -/
def getWrappedObject (w : World) (set : Ptr) : Ret JsValue :=
  let localObj := (newWrapper w).1
  let w1 := (newWrapper w).2
  ⟨Outcome.ok (JsValue.object localObj),
    wrapPointerInObject set Envelope.BatchImplEnvelope localObj w1⟩

/-- Modelled from the spec: `NdbError_Wrapper(const NdbError &)` of NdbWrappers.h, which
is not among the sources ("the translated error"): the error object built from the native
error. -/
def NdbError_Wrapper (e : NdbError) : JsValue :=
  JsValue.ndbError e

/-- The wrapper function `getOperationError(args)`. -/
def getOperationError (api : NativeApi) (w : World) (args : Arguments) : Ret JsValue :=
  let set := unwrapPointer w args.holder
  let n := Int32Value (args.get 0)
  match access w set with
  | some f => ⟨Outcome.fail f, w⟩
  | none =>
    let w1 := w.log (Event.native NativeOp.getError set [n])
    match api.getError set n with
    | none => ⟨Outcome.ok (JsValue.bool true), w1⟩
    | some err =>
      if err.code = 0 then ⟨Outcome.ok JsValue.null, w1⟩
      else ⟨Outcome.ok (NdbError_Wrapper err), w1⟩

/-- The wrapper function `tryImmediateStartTransaction(args)`. -/
def tryImmediateStartTransaction (api : NativeApi) (w : World) (args : Arguments) :
    Ret JsValue :=
  let ctx := unwrapPointer w args.holder
  match access w ctx with
  | some f => ⟨Outcome.fail f, w⟩
  | none =>
    let w1 := w.log (Event.native NativeOp.tryImmediateStartTransaction ctx [])
    ⟨Outcome.ok (if api.tryImmediateStartTransaction ctx then JsValue.bool true
      else JsValue.bool false), w1⟩

/-! ### Call descriptors -/

/-- Modelled from the spec: `getNdbErrorIfLessThanZero` of NdbWrapperErrors.h, which is
not among the sources ("negative return code is an error"): a negative return value is
mapped to the error of the native object, any other value to no error. -/
def ErrorHandler.apply (api : NativeApi) (h : ErrorHandler) (rval : Int) (obj : Ptr) :
    Option NdbError :=
  match h with
  | ErrorHandler.getNdbErrorIfLessThanZero =>
    if rval < 0 then some (api.getNdbError obj) else none

/-- Modelled from the spec: the constructor of `NativeMethodCall_3_` and
`NativeMethodCall_4_` of NativeMethodCall.h, which is not among the sources ("convert each
managed-heap argument to its native type"): the target is unwrapped from the holder, the
three integer arguments are converted, the fourth value is kept as it is, and the result
slots are empty.  The error handler the base class starts with is the parameter
`base`. -/
def NativeMethodCall.new (base : Option ErrorHandler) (w : World) (args : Arguments) :
    MethodCall :=
  { native_obj := unwrapPointer w args.holder
    arg0 := Int32Value (args.get 0)
    arg1 := Int32Value (args.get 1)
    arg2 := Int32Value (args.get 2)
    callback := args.get 3
    errorHandler := base
    return_val := 0
    error := none }

/-- The constructor of `TxExecuteAndCloseCall`: the base constructor, then
`errorHandler = getNdbErrorIfLessThanZero`. -/
def TxExecuteAndCloseCall.new (base : Option ErrorHandler) (w : World) (args : Arguments) :
    MethodCall :=
  { NativeMethodCall.new base w args with
    errorHandler := some ErrorHandler.getNdbErrorIfLessThanZero }

/-- Modelled from the spec: `handleErrors()` of NativeMethodCall.h, which is not among
the sources ("convert any native error using the Error Translator"): the error handler,
when there is one, fills the error slot from the return value. -/
def MethodCall.handleErrors (api : NativeApi) (c : MethodCall) : MethodCall :=
  match c.errorHandler with
  | some h => { c with error := h.apply api c.return_val c.native_obj }
  | none => c

/-- Modelled from the spec: `run()` of NativeMethodCall.h, which is not among the
sources ("invoke the operation"): the native member function `op` is invoked on the
target with the converted arguments and the fourth value, and what it returns is stored in
the descriptor. -/
def MethodCall.run (op : NativeOp) (f : Ptr → Int → Int → Int → JsValue → Int)
    (c : MethodCall) (w : World) : Ret MethodCall :=
  match access w c.native_obj with
  | some e => ⟨Outcome.fail e, w⟩
  | none =>
    ⟨Outcome.ok { c with return_val := f c.native_obj c.arg0 c.arg1 c.arg2 c.callback },
      w.log (Event.native op c.native_obj [c.arg0, c.arg1, c.arg2])⟩

/-- Modelled from the spec: `jsReturnVal()` of NativeMethodCall.h, which is not among the
sources ("convert the native result back to a managed-heap value"): the integer return
value as a value of the runtime. -/
def MethodCall.jsReturnVal (c : MethodCall) : JsValue :=
  JsValue.int c.return_val

/-- Modelled from the spec: `runAsync()` of NativeMethodCall.h, which is not among the
sources ("handed to the Async Execution Context"): the descriptor joins the queue of
pending calls; nothing is invoked yet. -/
def MethodCall.runAsync (c : MethodCall) (w : World) : World :=
  { w with pending := w.pending ++ [c] }

/-- Modelled from the spec: `NativeMethodCall_3_::doAsyncCallback` of NativeMethodCall.h,
which is not among the sources ("the supplied completion callback is invoked later on the
runtime thread with the converted result and/or error"): the callback of the descriptor
is invoked with its error and its return value. -/
def NativeMethodCall.doAsyncCallback (c : MethodCall) (w : World) : World :=
  w.log (Event.callback c.callback c.error c.return_val)

/-- The method `TxExecuteAndCloseCall::doAsyncCallback(context)`. -/
def TxExecuteAndCloseCall.doAsyncCallback (c : MethodCall) (w : World) : Ret Unit :=
  if c.arg0 ≠ NdbTransaction.NoCommit then
    match access w c.native_obj with
    | some e => ⟨Outcome.fail e, w⟩
    | none =>
      let w1 := w.log (Event.native NativeOp.registerClosedTransaction c.native_obj [])
      ⟨Outcome.ok (), NativeMethodCall.doAsyncCallback c w1⟩
  else ⟨Outcome.ok (), NativeMethodCall.doAsyncCallback c w⟩

/-- The wrapper function `execute(args)`. -/
def execute (base : Option ErrorHandler) (w : World) (args : Arguments) : Ret JsValue :=
  if ¬ REQUIRE_ARGS_LENGTH args 4 then ⟨Outcome.fail Failure.marshalError, w⟩
  else
    let ncallptr := TxExecuteAndCloseCall.new base w args
    ⟨Outcome.ok JsValue.undefined, ncallptr.runAsync w⟩

/-- Modelled from the spec: the completion of the oldest pending call, which
AsyncMethodCall.h and NativeMethodCall.h (not among the sources) spread over a worker
thread and the runtime thread ("native worker thread runs the native call ... a
completion record is queued and delivered on the runtime thread via a scheduled
callback, carrying result and/or translated error"): the native `execute` runs, the error
handler classifies what it returned, then `doAsyncCallback` of the descriptor runs. -/
def completeAsync (api : NativeApi) (w : World) : Ret Unit :=
  match w.pending with
  | [] => ⟨Outcome.ok (), w⟩
  | c :: rest =>
    let w0 := { w with pending := rest }
    match c.run NativeOp.execute (fun obj a0 a1 a2 _ => api.execute obj a0 a1 a2) w0 with
    | ⟨Outcome.fail e, w1⟩ => ⟨Outcome.fail e, w1⟩
    | ⟨Outcome.ok c1, w1⟩ => TxExecuteAndCloseCall.doAsyncCallback (c1.handleErrors api) w1

/-- The wrapper function `executeAsynch(args)`. -/
def executeAsynch (base : Option ErrorHandler) (api : NativeApi) (w : World)
    (args : Arguments) : Ret JsValue :=
  let mcall := NativeMethodCall.new base w args
  match mcall.run NativeOp.executeAsynch api.executeAsynch w with
  | ⟨Outcome.fail e, w1⟩ => ⟨Outcome.fail e, w1⟩
  | ⟨Outcome.ok mcall1, w1⟩ => ⟨Outcome.ok mcall1.jsReturnVal, w1⟩

/-- The wrapper function `readBlobResults(args)`. -/
def readBlobResults (api : NativeApi) (w : World) (args : Arguments) : Ret JsValue :=
  let set := unwrapPointer w args.holder
  let n := Int32Value (args.get 0)
  match access w set with
  | some f => ⟨Outcome.fail f, w⟩
  | none =>
    ⟨Outcome.ok (api.readBlobResults set n),
      w.log (Event.native NativeOp.readBlobResults set [n])⟩

/-- The wrapper function `BatchImpl_freeImpl(args)`. -/
def BatchImpl_freeImpl (w : World) (args : Arguments) : Ret JsValue :=
  let set := unwrapPointer w args.holder
  match delete w set with
  | ⟨Outcome.fail f, w1⟩ => ⟨Outcome.fail f, w1⟩
  | ⟨Outcome.ok _, w1⟩ =>
    ⟨Outcome.ok JsValue.undefined,
      wrapPointerInObject 0 Envelope.BatchImplEnvelope args.holder w1⟩

/-- The methods `BatchImplEnvelopeClass` adds to its envelope. -/
inductive BatchMethod where
  | tryImmediateStartTransaction
  | getOperationError
  | execute
  | executeAsynch
  | readBlobResults
  | free
deriving DecidableEq, Repr

/-- The table of `BatchImplEnvelopeClass`: the wrapper function behind each method. -/
def BatchImplEnvelope.call (base : Option ErrorHandler) (api : NativeApi) (m : BatchMethod)
    (w : World) (args : Arguments) : Ret JsValue :=
  match m with
  | BatchMethod.tryImmediateStartTransaction => tryImmediateStartTransaction api w args
  | BatchMethod.getOperationError => getOperationError api w args
  | BatchMethod.execute => execute base w args
  | BatchMethod.executeAsynch => executeAsynch base api w args
  | BatchMethod.readBlobResults => readBlobResults api w args
  | BatchMethod.free => BatchImpl_freeImpl w args

/-! ## AsyncNdbContext_wrapper.cpp -/

/-- Modelled from the spec: `JsValueConverter<Ndb_cluster_connection *>` of
JsConverter.h, which is not among the sources ("convert each managed-heap argument to its
native type"): a wrapper object converts to the pointer it holds, any other value to the
null pointer. -/
def toPointer (w : World) : JsValue → Ptr
  | JsValue.object id => unwrapPointer w id
  | _ => 0

/-- The wrapper function `createAsyncNdbContext(args)`. -/
def createAsyncNdbContext (w : World) (args : Arguments) : Ret JsValue :=
  if ¬ REQUIRE_CONSTRUCTOR_CALL args then ⟨Outcome.fail Failure.notConstructorCall, w⟩
  else if ¬ REQUIRE_ARGS_LENGTH args 1 then ⟨Outcome.fail Failure.marshalError, w⟩
  else
    let arg0 := toPointer w (args.get 0)
    let ctx := freshAddr w
    let w1 := { w with live := ctx :: w.live }.log
      (Event.native NativeOp.newAsyncNdbContext ctx [Int.ofNat arg0])
    let wrapper := (newWrapper w1).1
    let w2 := (newWrapper w1).2
    ⟨Outcome.ok (JsValue.object wrapper),
      wrapPointerInObject ctx Envelope.AsyncNdbContextEnvelope wrapper w2⟩

/-- The wrapper function `shutdown(args)`: the immediate call of
`AsyncNdbContext::shutdown` through `NativeVoidMethodCall_0_`. -/
def shutdown (w : World) (args : Arguments) : Ret JsValue :=
  if ¬ REQUIRE_ARGS_LENGTH args 0 then ⟨Outcome.fail Failure.marshalError, w⟩
  else
    let native_obj := unwrapPointer w args.holder
    match access w native_obj with
    | some f => ⟨Outcome.fail f, w⟩
    | none =>
      ⟨Outcome.ok JsValue.undefined, w.log (Event.native NativeOp.shutdown native_obj [])⟩

/-- The wrapper function `destroy(args)`, exposed as the method `delete`. -/
def destroy (w : World) (args : Arguments) : Ret JsValue :=
  if ¬ REQUIRE_ARGS_LENGTH args 0 then ⟨Outcome.fail Failure.marshalError, w⟩
  else
    let c := unwrapPointer w args.holder
    match delete w c with
    | ⟨Outcome.fail f, w1⟩ => ⟨Outcome.fail f, w1⟩
    | ⟨Outcome.ok _, w1⟩ => ⟨Outcome.ok JsValue.undefined, w1⟩

/-- The methods `AsyncNdbContextEnvelopeClass` adds to its envelope. -/
inductive ContextMethod where
  | AsyncNdbContext
  | shutdown
  | delete
deriving DecidableEq, Repr

/-- The table of `AsyncNdbContextEnvelopeClass`: the wrapper function behind each
method. -/
def AsyncNdbContextEnvelope.call (m : ContextMethod) (w : World) (args : Arguments) :
    Ret JsValue :=
  match m with
  | ContextMethod.AsyncNdbContext => createAsyncNdbContext w args
  | ContextMethod.shutdown => shutdown w args
  | ContextMethod.delete => destroy w args

/-! ## Scenarios -/

/-- The call `free()`, then `BatchImpl_Recycle` of the same wrapper onto `newSet`. -/
def freeThenRecycle (w : World) (wrapper : Nat) (newSet : Ptr) : Ret JsValue :=
  match BatchImpl_freeImpl w ⟨wrapper, [], false⟩ with
  | ⟨Outcome.fail f, w1⟩ => ⟨Outcome.fail f, w1⟩
  | ⟨Outcome.ok _, w1⟩ => BatchImpl_Recycle w1 wrapper newSet

/-- One free and recycle of the same wrapper for each resource of the list, in order,
stopping at the first failure. -/
def recycleAll (w : World) (wrapper : Nat) : List Ptr → Ret JsValue
  | [] => ⟨Outcome.ok (JsValue.object wrapper), w⟩
  | newSet :: more =>
    match freeThenRecycle w wrapper newSet with
    | ⟨Outcome.fail f, w1⟩ => ⟨Outcome.fail f, w1⟩
    | ⟨Outcome.ok _, w1⟩ => recycleAll w1 wrapper more

/-- A native library for the examples: operation 0 has no error object, operation 1 an
error object of code 0, every other operation the error 4008; every execution returns
-1. -/
def exampleApi : NativeApi :=
  { getError := fun _ n =>
      if n = 0 then none else if n = 1 then some ⟨0, 0, ""⟩ else some ⟨4008, 1, "timeout"⟩
    tryImmediateStartTransaction := fun _ => true
    execute := fun _ _ _ _ => -1
    executeAsynch := fun _ _ _ _ _ => -1
    readBlobResults := fun _ _ => JsValue.null
    getNdbError := fun _ => ⟨266, 1, "deadlock"⟩ }

/-- A state for the examples: three allocated native objects, at the addresses 7, 9 and
11, and nothing else. -/
def emptyWorld : World :=
  { heap := [], live := [7, 9, 11], gc := [], pending := [], trace := [] }

/-- The state after `BatchImpl_Wrapper` has wrapped the batch at address 7: the wrapper is
object 0 of the heap. -/
def batchWorld : World :=
  (BatchImpl_Wrapper emptyWorld 7).world

/-- The state after `free()` on the wrapper of `batchWorld`. -/
def freedWorld : World :=
  (BatchImpl_freeImpl batchWorld ⟨0, [], false⟩).world

/-- The state after `createAsyncNdbContext` has been called as a constructor with one
argument: the context is at address 12 and its wrapper is object 0 of the heap. -/
def contextWorld : World :=
  (createAsyncNdbContext emptyWorld ⟨0, [JsValue.object 3], true⟩).world

/-! ## Properties -/

/-- An unwrapped pointer that can be accessed is not the null pointer. -/
theorem access_none_iff (w : World) (p : Ptr) : access w p = none ↔ p ≠ 0 ∧ p ∈ w.live := by
  unfold access
  by_cases h0 : p = 0
  · simp [h0]
  · by_cases hl : p ∈ w.live <;> simp [h0, hl]

/-- Writing a pointer into an object of the heap makes it the pointer read back. -/
theorem unwrapPointer_wrapPointerInObject (w : World) (ptr : Ptr) (env : Envelope)
    (obj : Nat) (h : obj < w.heap.length) :
    unwrapPointer (wrapPointerInObject ptr env obj w) obj = ptr := by
  simp [unwrapPointer, wrapPointerInObject, List.getD_eq_getElem?_getD, List.getElem?_set, h]

/-- C1: on a wrapper bound to an allocated batch, `getOperationError` returns true exactly
when the batch has no error object for operation `n`, null exactly when the error object
has code 0, and the wrapped error object exactly when the error object has a code other
than 0; one of the three always happens, and no two of them together. -/
theorem getOperationError_three_cases (api : NativeApi) (w : World) (args : Arguments)
    (n : Int) (hbatch : access w (unwrapPointer w args.holder) = none)
    (hn : Int32Value (args.get 0) = n) :
    ((getOperationError api w args).result = Outcome.ok (JsValue.bool true) ↔
        api.getError (unwrapPointer w args.holder) n = none) ∧
    ((getOperationError api w args).result = Outcome.ok JsValue.null ↔
        ∃ e, api.getError (unwrapPointer w args.holder) n = some e ∧ e.code = 0) ∧
    (∀ e, (getOperationError api w args).result = Outcome.ok (NdbError_Wrapper e) ↔
        api.getError (unwrapPointer w args.holder) n = some e ∧ e.code ≠ 0) ∧
    ((getOperationError api w args).result = Outcome.ok (JsValue.bool true) ∨
      (getOperationError api w args).result = Outcome.ok JsValue.null ∨
      ∃ e, (getOperationError api w args).result = Outcome.ok (NdbError_Wrapper e)) ∧
    ¬ ((getOperationError api w args).result = Outcome.ok (JsValue.bool true) ∧
        (getOperationError api w args).result = Outcome.ok JsValue.null) ∧
    (∀ e, ¬ ((getOperationError api w args).result = Outcome.ok (NdbError_Wrapper e) ∧
        ((getOperationError api w args).result = Outcome.ok (JsValue.bool true) ∨
          (getOperationError api w args).result = Outcome.ok JsValue.null))) := by
  subst hn
  unfold getOperationError
  simp only [hbatch]
  cases hg : api.getError (unwrapPointer w args.holder) (Int32Value (args.get 0)) with
  | none => simp [NdbError_Wrapper]
  | some err =>
    by_cases hc : err.code = 0
    · simp [hc, NdbError_Wrapper]
    · simp [hc, NdbError_Wrapper]

/-- The completion callback of a descriptor whose batch is allocated: the registration of
the closed transaction, when the execution type is not NoCommit, then the callback. -/
theorem doAsyncCallback_trace (c : MethodCall) (w : World)
    (hbatch : access w c.native_obj = none) :
    (TxExecuteAndCloseCall.doAsyncCallback c w).result = Outcome.ok () ∧
    (TxExecuteAndCloseCall.doAsyncCallback c w).world.trace =
      w.trace ++
        (if c.arg0 ≠ NdbTransaction.NoCommit then
          [Event.native NativeOp.registerClosedTransaction c.native_obj []] else []) ++
        [Event.callback c.callback c.error c.return_val] ∧
    (TxExecuteAndCloseCall.doAsyncCallback c w).world.pending = w.pending := by
  unfold TxExecuteAndCloseCall.doAsyncCallback
  by_cases hc : c.arg0 = NdbTransaction.NoCommit
  · simp [hc, NativeMethodCall.doAsyncCallback, World.log]
  · simp [hc, hbatch, NativeMethodCall.doAsyncCallback, World.log]

/-- The member access depends only on the allocated native objects. -/
theorem access_congr (w v : World) (p : Ptr) (h : v.live = w.live) :
    access v p = access w p := by
  simp [access, h]

/-- The error handler fills the error slot only. -/
theorem handleErrors_fields (api : NativeApi) (c : MethodCall) :
    (c.handleErrors api).native_obj = c.native_obj ∧
    (c.handleErrors api).arg0 = c.arg0 ∧
    (c.handleErrors api).callback = c.callback ∧
    (c.handleErrors api).return_val = c.return_val := by
  unfold MethodCall.handleErrors
  cases c.errorHandler <;> simp

/-- A call with four arguments passes the check of `execute`, which queues the descriptor
and returns undefined. -/
theorem execute_of_four_args (base : Option ErrorHandler) (w : World) (args : Arguments)
    (hargs : args.Length = 4) :
    execute base w args =
      ⟨Outcome.ok JsValue.undefined,
        { w with pending := w.pending ++ [TxExecuteAndCloseCall.new base w args] }⟩ := by
  simp [execute, REQUIRE_ARGS_LENGTH, hargs, MethodCall.runAsync]

/-- The completion of the oldest pending call, when its batch is allocated. -/
theorem completeAsync_cons (api : NativeApi) (w : World) (c : MethodCall)
    (rest : List MethodCall) (hp : w.pending = c :: rest)
    (hbatch : access w c.native_obj = none) :
    completeAsync api w =
      TxExecuteAndCloseCall.doAsyncCallback
        (MethodCall.handleErrors api
          { c with return_val := api.execute c.native_obj c.arg0 c.arg1 c.arg2 })
        ({ w with pending := rest }.log
          (Event.native NativeOp.execute c.native_obj [c.arg0, c.arg1, c.arg2])) := by
  have hacc : access { w with pending := rest } c.native_obj = none := by
    exact (access_congr w _ _ rfl).trans hbatch
  unfold completeAsync
  rw [hp]
  simp only [MethodCall.run, hacc]

/-- An asynchronous `execute` with four arguments on an allocated batch, then its
completion: the events added to the trace, with the error and the return value the
callback receives. -/
theorem execute_then_complete (base : Option ErrorHandler) (api : NativeApi) (w : World)
    (args : Arguments) (hargs : args.Length = 4) (hpending : w.pending = [])
    (hbatch : access w (unwrapPointer w args.holder) = none) :
    (completeAsync api (execute base w args).world).result = Outcome.ok () ∧
    (completeAsync api (execute base w args).world).world.trace =
      w.trace ++
        [Event.native NativeOp.execute (unwrapPointer w args.holder)
          [Int32Value (args.get 0), Int32Value (args.get 1), Int32Value (args.get 2)]] ++
        (if Int32Value (args.get 0) ≠ NdbTransaction.NoCommit then
          [Event.native NativeOp.registerClosedTransaction
            (unwrapPointer w args.holder) []] else []) ++
        [Event.callback (args.get 3)
          (if api.execute (unwrapPointer w args.holder) (Int32Value (args.get 0))
              (Int32Value (args.get 1)) (Int32Value (args.get 2)) < 0
            then some (api.getNdbError (unwrapPointer w args.holder)) else none)
          (api.execute (unwrapPointer w args.holder) (Int32Value (args.get 0))
            (Int32Value (args.get 1)) (Int32Value (args.get 2)))] := by
  rw [execute_of_four_args base w args hargs]
  have hc := completeAsync_cons api
    { w with pending := w.pending ++ [TxExecuteAndCloseCall.new base w args] }
    (TxExecuteAndCloseCall.new base w args) [] (by simp [hpending])
    ((access_congr w _ _ rfl).trans hbatch)
  have hf := handleErrors_fields api
    { TxExecuteAndCloseCall.new base w args with
      return_val := api.execute (TxExecuteAndCloseCall.new base w args).native_obj
        (TxExecuteAndCloseCall.new base w args).arg0
        (TxExecuteAndCloseCall.new base w args).arg1
        (TxExecuteAndCloseCall.new base w args).arg2 }
  have hd := doAsyncCallback_trace
    (MethodCall.handleErrors api
      { TxExecuteAndCloseCall.new base w args with
        return_val := api.execute (TxExecuteAndCloseCall.new base w args).native_obj
          (TxExecuteAndCloseCall.new base w args).arg0
          (TxExecuteAndCloseCall.new base w args).arg1
          (TxExecuteAndCloseCall.new base w args).arg2 })
    ({ ({ w with pending := w.pending ++ [TxExecuteAndCloseCall.new base w args] } : World)
        with pending := [] }.log
      (Event.native NativeOp.execute (TxExecuteAndCloseCall.new base w args).native_obj
        [(TxExecuteAndCloseCall.new base w args).arg0,
          (TxExecuteAndCloseCall.new base w args).arg1,
          (TxExecuteAndCloseCall.new base w args).arg2]))
    (by rw [hf.1]; exact (access_congr w _ _ rfl).trans hbatch)
  rw [← hc] at hd
  obtain ⟨hres, htr, -⟩ := hd
  rw [hf.2.1, hf.1, hf.2.2.1, hf.2.2.2] at htr
  have hnew : (TxExecuteAndCloseCall.new base w args).native_obj = unwrapPointer w args.holder ∧
      (TxExecuteAndCloseCall.new base w args).arg0 = Int32Value (args.get 0) ∧
      (TxExecuteAndCloseCall.new base w args).arg1 = Int32Value (args.get 1) ∧
      (TxExecuteAndCloseCall.new base w args).arg2 = Int32Value (args.get 2) ∧
      (TxExecuteAndCloseCall.new base w args).callback = args.get 3 := by
    simp [TxExecuteAndCloseCall.new, NativeMethodCall.new]
  simp only [hnew.1, hnew.2.1, hnew.2.2.1, hnew.2.2.2.1, hnew.2.2.2.2, World.log] at htr
  refine ⟨hres, ?_⟩
  rw [htr]
  simp [MethodCall.handleErrors, TxExecuteAndCloseCall.new, ErrorHandler.apply]

/-- C2: an asynchronous `execute` with its four arguments on an allocated batch, followed
by its completion, runs the native execute, then registers the transaction as closed once
when the execution type is not NoCommit and not at all when it is NoCommit, and invokes
the callback last: the registration is strictly before the callback. -/
theorem execute_registers_closed_before_callback (base : Option ErrorHandler)
    (api : NativeApi) (w : World) (args : Arguments)
    (hargs : args.Length = 4) (hpending : w.pending = [])
    (hbatch : access w (unwrapPointer w args.holder) = none) :
    (execute base w args).result = Outcome.ok JsValue.undefined ∧
    (execute base w args).world.trace = w.trace ∧
    (completeAsync api (execute base w args).world).result = Outcome.ok () ∧
    (∃ error return_val,
      (completeAsync api (execute base w args).world).world.trace =
        w.trace ++
          [Event.native NativeOp.execute (unwrapPointer w args.holder)
            [Int32Value (args.get 0), Int32Value (args.get 1), Int32Value (args.get 2)]] ++
          (if Int32Value (args.get 0) ≠ NdbTransaction.NoCommit then
            [Event.native NativeOp.registerClosedTransaction
              (unwrapPointer w args.holder) []] else []) ++
          [Event.callback (args.get 3) error return_val]) ∧
    (completeAsync api (execute base w args).world).world.trace.count
        (Event.native NativeOp.registerClosedTransaction (unwrapPointer w args.holder) []) =
      w.trace.count
        (Event.native NativeOp.registerClosedTransaction (unwrapPointer w args.holder) []) +
      (if Int32Value (args.get 0) ≠ NdbTransaction.NoCommit then 1 else 0) := by
  obtain ⟨hres, htr⟩ := execute_then_complete base api w args hargs hpending hbatch
  refine ⟨by rw [execute_of_four_args base w args hargs],
    by rw [execute_of_four_args base w args hargs], hres, ⟨_, _, htr⟩, ?_⟩
  rw [htr]
  by_cases hnc : Int32Value (args.get 0) = NdbTransaction.NoCommit
  · simp [hnc, List.count_append, List.count_cons]
  · simp [hnc, List.count_append, List.count_cons]

/-- The witness of C1: operation 2 of the example batch has the error 4008, and the call
returns that error wrapped. -/
theorem getOperationError_three_cases_witness :
    access batchWorld (unwrapPointer batchWorld 0) = none ∧
    (getOperationError exampleApi batchWorld ⟨0, [JsValue.int 2], false⟩).result =
      Outcome.ok (NdbError_Wrapper ⟨4008, 1, "timeout"⟩) :=
  ⟨by decide,
    ((getOperationError_three_cases exampleApi batchWorld ⟨0, [JsValue.int 2], false⟩ 2
      (by decide) (by decide)).2.2.1 ⟨4008, 1, "timeout"⟩).mpr ⟨by decide, by decide⟩⟩

/-- The witness of C2: a commit (execution type 2) on the example batch registers the
closed transaction once. -/
theorem execute_registers_closed_before_callback_witness :
    (completeAsync exampleApi (execute none batchWorld
        ⟨0, [JsValue.int 2, JsValue.int 0, JsValue.int 1, JsValue.function 5],
          false⟩).world).world.trace.count
        (Event.native NativeOp.registerClosedTransaction (unwrapPointer batchWorld 0) []) =
      batchWorld.trace.count
        (Event.native NativeOp.registerClosedTransaction (unwrapPointer batchWorld 0) []) +
      (if Int32Value (Arguments.get
          ⟨0, [JsValue.int 2, JsValue.int 0, JsValue.int 1, JsValue.function 5], false⟩ 0) ≠
          NdbTransaction.NoCommit then 1 else 0) :=
  (execute_registers_closed_before_callback none exampleApi batchWorld
    ⟨0, [JsValue.int 2, JsValue.int 0, JsValue.int 1, JsValue.function 5], false⟩
    (by decide) (by decide) (by decide)).2.2.2.2

/-- C4: `BatchImpl_Recycle` on a wrapper whose pointer is not null fails its assertion,
whatever the new resource, and leaves the state, the binding of the wrapper included, as
it was. -/
theorem BatchImpl_Recycle_bound_fails (w : World) (oldWrapper : Nat) (newSet : Ptr)
    (hbound : unwrapPointer w oldWrapper ≠ 0) :
    (BatchImpl_Recycle w oldWrapper newSet).result = Outcome.fail Failure.assertionFailed ∧
    (BatchImpl_Recycle w oldWrapper newSet).world = w ∧
    unwrapPointer (BatchImpl_Recycle w oldWrapper newSet).world oldWrapper =
      unwrapPointer w oldWrapper := by
  unfold BatchImpl_Recycle
  by_cases h0 : newSet = 0
  · simp [h0]
  · simp [h0, hbound]

/-- The witness of C4: the wrapper of the example batch, bound to address 7, is not
recycled onto address 9. -/
theorem BatchImpl_Recycle_bound_fails_witness :
    unwrapPointer batchWorld 0 ≠ 0 ∧
    (BatchImpl_Recycle batchWorld 0 9).result = Outcome.fail Failure.assertionFailed ∧
    (BatchImpl_Recycle batchWorld 0 9).world = batchWorld ∧
    unwrapPointer (BatchImpl_Recycle batchWorld 0 9).world 0 = unwrapPointer batchWorld 0 :=
  ⟨by decide, BatchImpl_Recycle_bound_fails batchWorld 0 9 (by decide)⟩

/-- The call `free()` on a wrapper bound to an allocated batch: the batch is deleted and
the wrapper holds the null pointer. -/
theorem BatchImpl_freeImpl_bound (w : World) (args : Arguments)
    (hbatch : access w (unwrapPointer w args.holder) = none) :
    BatchImpl_freeImpl w args =
      ⟨Outcome.ok JsValue.undefined,
        { w with
          heap := w.heap.set args.holder
            { envelope := some Envelope.BatchImplEnvelope, pointer := 0 }
          live := w.live.filter (fun q => q ≠ unwrapPointer w args.holder) }⟩ := by
  obtain ⟨h0, hl⟩ := (access_none_iff w _).mp hbatch
  simp [BatchImpl_freeImpl, delete, h0, hl, wrapPointerInObject]

/-- The call `free()` on a wrapper that holds the null pointer deletes nothing. -/
theorem BatchImpl_freeImpl_null (w : World) (args : Arguments)
    (hnull : unwrapPointer w args.holder = 0) :
    BatchImpl_freeImpl w args =
      ⟨Outcome.ok JsValue.undefined,
        { w with
          heap := w.heap.set args.holder
            { envelope := some Envelope.BatchImplEnvelope, pointer := 0 } }⟩ := by
  simp [BatchImpl_freeImpl, delete, hnull, wrapPointerInObject]

/-- One free and recycle of a wrapper bound to an allocated batch. -/
theorem freeThenRecycle_bound (w : World) (wrapper : Nat) (newSet : Ptr)
    (hobj : wrapper < w.heap.length)
    (hbatch : access w (unwrapPointer w wrapper) = none) (hnew : newSet ≠ 0) :
    freeThenRecycle w wrapper newSet =
      ⟨Outcome.ok (JsValue.object wrapper),
        { w with
          heap := w.heap.set wrapper
            { envelope := some Envelope.BatchImplEnvelope, pointer := newSet }
          live := w.live.filter (fun q => q ≠ unwrapPointer w wrapper) }⟩ := by
  unfold freeThenRecycle
  rw [BatchImpl_freeImpl_bound w ⟨wrapper, [], false⟩ hbatch]
  simp [BatchImpl_Recycle, hnew, unwrapPointer, wrapPointerInObject,
    List.getD_eq_getElem?_getD, List.getElem?_set, hobj]

/-- C5, the counterexample: the wrapper of the example batch, freed and recycled onto the
batch at address 9, is bound to it but is registered with the collector for address 7
only, while a wrapper that `BatchImpl_Wrapper` makes for address 9 is registered for
address 9; and a wrapper made by `getWrappedObject`, freed and recycled, is not
registered at all. -/
theorem BatchImpl_Recycle_not_registered :
    unwrapPointer freedWorld 0 = 0 ∧
    (BatchImpl_Recycle freedWorld 0 9).result = Outcome.ok (JsValue.object 0) ∧
    unwrapPointer (BatchImpl_Recycle freedWorld 0 9).world 0 = 9 ∧
    (BatchImpl_Recycle freedWorld 0 9).world.gc = [(7, 0)] ∧
    (9, 0) ∉ (BatchImpl_Recycle freedWorld 0 9).world.gc ∧
    (BatchImpl_Wrapper freedWorld 9).result = Outcome.ok (JsValue.object 1) ∧
    (9, 1) ∈ (BatchImpl_Wrapper freedWorld 9).world.gc ∧
    (BatchImpl_Recycle
      (BatchImpl_freeImpl (getWrappedObject emptyWorld 7).world ⟨0, [], false⟩).world
      0 9).world.gc = [] := by
  decide

/-- C5, amended: `BatchImpl_Recycle` on a wrapper whose pointer is null, with a new
resource that is not null, succeeds, returns the wrapper it was given, allocates no
object, and leaves the wrapper with the envelope and the pointer that a wrapper made by
`BatchImpl_Wrapper` for that resource has. -/
theorem BatchImpl_Recycle_empty_rebinds (w fresh : World) (oldWrapper : Nat) (newSet : Ptr)
    (hobj : oldWrapper < w.heap.length) (hempty : unwrapPointer w oldWrapper = 0)
    (hnew : newSet ≠ 0) :
    (BatchImpl_Recycle w oldWrapper newSet).result = Outcome.ok (JsValue.object oldWrapper) ∧
    (BatchImpl_Recycle w oldWrapper newSet).world.heap.length = w.heap.length ∧
    (BatchImpl_Recycle w oldWrapper newSet).world.heap[oldWrapper]? =
      some { envelope := some Envelope.BatchImplEnvelope, pointer := newSet } ∧
    (BatchImpl_Wrapper fresh newSet).result = Outcome.ok (JsValue.object fresh.heap.length) ∧
    (BatchImpl_Recycle w oldWrapper newSet).world.heap[oldWrapper]? =
      (BatchImpl_Wrapper fresh newSet).world.heap[fresh.heap.length]? ∧
    unwrapPointer (BatchImpl_Recycle w oldWrapper newSet).world oldWrapper = newSet := by
  have hr : BatchImpl_Recycle w oldWrapper newSet =
      ⟨Outcome.ok (JsValue.object oldWrapper),
        wrapPointerInObject newSet Envelope.BatchImplEnvelope oldWrapper w⟩ := by
    simp [BatchImpl_Recycle, hnew, hempty]
  rw [hr]
  refine ⟨rfl, by simp [wrapPointerInObject], by simp [wrapPointerInObject, hobj],
    by simp [BatchImpl_Wrapper, hnew, newWrapper], ?_,
    unwrapPointer_wrapPointerInObject w newSet _ oldWrapper hobj⟩
  simp [BatchImpl_Wrapper, hnew, newWrapper, wrapPointerInObject, freeFromGC, hobj]

/-- The witness of C5 as amended: the freed wrapper of the example batch is recycled onto
address 9. -/
theorem BatchImpl_Recycle_empty_rebinds_witness :
    (0 < freedWorld.heap.length ∧ unwrapPointer freedWorld 0 = 0 ∧ 9 ≠ 0) ∧
    (BatchImpl_Recycle freedWorld 0 9).result = Outcome.ok (JsValue.object 0) ∧
    unwrapPointer (BatchImpl_Recycle freedWorld 0 9).world 0 = 9 :=
  ⟨by decide,
    (BatchImpl_Recycle_empty_rebinds freedWorld emptyWorld 0 9
      (by decide) (by decide) (by decide)).1,
    (BatchImpl_Recycle_empty_rebinds freedWorld emptyWorld 0 9
      (by decide) (by decide) (by decide)).2.2.2.2.2⟩

/-- Free and recycle cycles of one wrapper over a list of distinct allocated resources:
every cycle succeeds, the wrapper ends bound to the last resource, no object is
allocated, and every resource before the last has been deleted. -/
theorem recycleAll_spec (sets : List Ptr) :
    ∀ (w : World) (wrapper : Nat), wrapper < w.heap.length →
      (unwrapPointer w wrapper :: sets).Nodup →
      (∀ p ∈ unwrapPointer w wrapper :: sets, p ≠ 0 ∧ p ∈ w.live) →
      (recycleAll w wrapper sets).result = Outcome.ok (JsValue.object wrapper) ∧
      unwrapPointer (recycleAll w wrapper sets).world wrapper =
        sets.getLastD (unwrapPointer w wrapper) ∧
      (recycleAll w wrapper sets).world.heap.length = w.heap.length ∧
      (∀ p, p ∈ (recycleAll w wrapper sets).world.live ↔
        p ∈ w.live ∧ p ∉ (unwrapPointer w wrapper :: sets).dropLast) := by
  induction sets with
  | nil =>
    intro w wrapper _ _ _
    simp [recycleAll]
  | cons s more ih =>
    intro w wrapper hobj hnodup hall
    have hcur := hall (unwrapPointer w wrapper) (List.mem_cons_self _ _)
    have hs := hall s (List.mem_cons_of_mem _ (List.mem_cons_self _ _))
    have hstep := freeThenRecycle_bound w wrapper s hobj
      ((access_none_iff w _).mpr hcur) hs.1
    have hne : ∀ p ∈ s :: more, p ≠ unwrapPointer w wrapper := by
      intro p hp heq
      exact (List.nodup_cons.mp hnodup).1 (heq ▸ hp)
    have hptr : unwrapPointer
        { w with
          heap := w.heap.set wrapper
            { envelope := some Envelope.BatchImplEnvelope, pointer := s }
          live := w.live.filter (fun q => q ≠ unwrapPointer w wrapper) } wrapper = s := by
      simp [unwrapPointer, List.getD_eq_getElem?_getD, List.getElem?_set, hobj]
    have hrec := ih
      { w with
        heap := w.heap.set wrapper
          { envelope := some Envelope.BatchImplEnvelope, pointer := s }
        live := w.live.filter (fun q => q ≠ unwrapPointer w wrapper) } wrapper
      (by simpa using hobj)
      (by rw [hptr]; exact (List.nodup_cons.mp hnodup).2)
      (by
        rw [hptr]
        intro p hp
        refine ⟨(hall p (List.mem_cons_of_mem _ hp)).1, ?_⟩
        simp only [List.mem_filter, decide_eq_true_eq]
        exact ⟨(hall p (List.mem_cons_of_mem _ hp)).2, hne p hp⟩)
    have hunf : recycleAll w wrapper (s :: more) =
        recycleAll
          { w with
            heap := w.heap.set wrapper
              { envelope := some Envelope.BatchImplEnvelope, pointer := s }
            live := w.live.filter (fun q => q ≠ unwrapPointer w wrapper) } wrapper more := by
      rw [recycleAll, hstep]
    rw [hunf]
    rw [hptr] at hrec
    obtain ⟨h1, h2, h3, h4⟩ := hrec
    refine ⟨h1, ?_, ?_, ?_⟩
    · rw [h2, List.getLastD_cons]
    · rw [h3]; simp
    · intro p
      rw [h4 p]
      simp only [List.mem_filter, decide_eq_true_eq, List.dropLast_cons₂, List.mem_cons,
        not_or]
      tauto

/-- C10: `free()` on a wrapper bound to an allocated batch leaves the null pointer in it,
which is what `BatchImpl_Recycle` requires: free and recycle onto a resource that is not
null succeed and leave the same wrapper bound to that resource; and over any list of
distinct allocated resources the cycles all succeed on the same wrapper, which ends bound
to the last resource while every earlier one has been deleted. -/
theorem free_then_recycle_cycles (w : World) (wrapper : Nat) (newSet : Ptr)
    (sets : List Ptr) (hobj : wrapper < w.heap.length)
    (hbatch : access w (unwrapPointer w wrapper) = none) (hnew : newSet ≠ 0)
    (hnodup : (unwrapPointer w wrapper :: sets).Nodup)
    (hsets : ∀ p ∈ sets, p ≠ 0 ∧ p ∈ w.live) :
    (BatchImpl_freeImpl w ⟨wrapper, [], false⟩).result = Outcome.ok JsValue.undefined ∧
    unwrapPointer (BatchImpl_freeImpl w ⟨wrapper, [], false⟩).world wrapper = 0 ∧
    (BatchImpl_Recycle (BatchImpl_freeImpl w ⟨wrapper, [], false⟩).world wrapper
      newSet).result = Outcome.ok (JsValue.object wrapper) ∧
    unwrapPointer (BatchImpl_Recycle (BatchImpl_freeImpl w ⟨wrapper, [], false⟩).world
      wrapper newSet).world wrapper = newSet ∧
    (BatchImpl_Recycle (BatchImpl_freeImpl w ⟨wrapper, [], false⟩).world wrapper
      newSet).world.heap.length = w.heap.length ∧
    unwrapPointer w wrapper ∉ (BatchImpl_Recycle
      (BatchImpl_freeImpl w ⟨wrapper, [], false⟩).world wrapper newSet).world.live ∧
    (recycleAll w wrapper sets).result = Outcome.ok (JsValue.object wrapper) ∧
    unwrapPointer (recycleAll w wrapper sets).world wrapper =
      sets.getLastD (unwrapPointer w wrapper) ∧
    (recycleAll w wrapper sets).world.heap.length = w.heap.length ∧
    (∀ p, p ∈ (recycleAll w wrapper sets).world.live ↔
      p ∈ w.live ∧ p ∉ (unwrapPointer w wrapper :: sets).dropLast) := by
  have hcur := (access_none_iff w _).mp hbatch
  have hfree := BatchImpl_freeImpl_bound w ⟨wrapper, [], false⟩ hbatch
  have hall := recycleAll_spec sets w wrapper hobj hnodup
    (by
      intro p hp
      rcases List.mem_cons.mp hp with h | h
      · exact h ▸ hcur
      · exact hsets p h)
  have hcyc := freeThenRecycle_bound w wrapper newSet hobj hbatch hnew
  unfold freeThenRecycle at hcyc
  rw [hfree] at hcyc
  simp only at hcyc
  have hfw : (BatchImpl_freeImpl w ⟨wrapper, [], false⟩).world =
      { w with
        heap := w.heap.set wrapper
          { envelope := some Envelope.BatchImplEnvelope, pointer := 0 }
        live := w.live.filter (fun q => q ≠ unwrapPointer w wrapper) } := by
    rw [hfree]
  have hfr : (BatchImpl_freeImpl w ⟨wrapper, [], false⟩).result =
      Outcome.ok JsValue.undefined := by
    rw [hfree]
  refine ⟨hfr, ?_, ?_, ?_, ?_, ?_, hall⟩
  · rw [hfw]
    simp [unwrapPointer, List.getD_eq_getElem?_getD, List.getElem?_set, hobj]
  · rw [hfw, hcyc]
  · rw [hfw, hcyc]
    simp [unwrapPointer, List.getD_eq_getElem?_getD, List.getElem?_set, hobj]
  · rw [hfw, hcyc]
    simp
  · rw [hfw, hcyc]
    simp [List.mem_filter]

/-- The witness of C10: the wrapper of the example batch goes through two cycles, onto
address 9 and then onto address 11. -/
theorem free_then_recycle_cycles_witness :
    (recycleAll batchWorld 0 [9, 11]).result = Outcome.ok (JsValue.object 0) ∧
    unwrapPointer (recycleAll batchWorld 0 [9, 11]).world 0 = 11 ∧
    (recycleAll batchWorld 0 [9, 11]).world.live = [11] :=
  ⟨(free_then_recycle_cycles batchWorld 0 9 [9, 11] (by decide) (by decide) (by decide)
      (by decide) (by decide)).2.2.2.2.2.2.1,
    (free_then_recycle_cycles batchWorld 0 9 [9, 11] (by decide) (by decide) (by decide)
      (by decide) (by decide)).2.2.2.2.2.2.2.1,
    by decide⟩

/-- The state a successful `free()` leaves holds the null pointer in the wrapper, and
its heap is the old heap with the wrapper rewritten. -/
theorem BatchImpl_freeImpl_ok (w : World) (args : Arguments)
    (hfree : (BatchImpl_freeImpl w args).result = Outcome.ok JsValue.undefined) :
    ∃ live, (BatchImpl_freeImpl w args).world =
      { w with
        heap := w.heap.set args.holder
          { envelope := some Envelope.BatchImplEnvelope, pointer := 0 }
        live := live } := by
  unfold BatchImpl_freeImpl delete at hfree ⊢
  by_cases h0 : unwrapPointer w args.holder = 0
  · exact ⟨w.live, by simp [h0, wrapPointerInObject]⟩
  · by_cases hl : unwrapPointer w args.holder ∈ w.live
    · exact ⟨w.live.filter (fun q => q ≠ unwrapPointer w args.holder),
        by simp [h0, hl, wrapPointerInObject]⟩
    · simp [h0, hl] at hfree

/-- C3, the counterexample: on the freed wrapper of the example batch a second `free()`
succeeds and changes nothing, and `getOperationError` dereferences the null pointer;
neither is an error raised for the use of a released handle. -/
theorem after_free_second_free_succeeds :
    unwrapPointer freedWorld 0 = 0 ∧
    BatchImplEnvelope.call none exampleApi BatchMethod.free freedWorld ⟨0, [], false⟩ =
      ⟨Outcome.ok JsValue.undefined, freedWorld⟩ ∧
    BatchImplEnvelope.call none exampleApi BatchMethod.getOperationError freedWorld
        ⟨0, [JsValue.int 2], false⟩ =
      ⟨Outcome.fail Failure.nullDereference, freedWorld⟩ := by
  decide

/-- C3, amended: after a successful `free()` the wrapper holds the null pointer; a second
`free()` through it succeeds, deletes nothing and leaves the state as it is; and
`getOperationError`, `tryImmediateStartTransaction` and `readBlobResults` make no test of
the pointer: they dereference the null pointer, before any native operation. -/
theorem after_free_operations (api : NativeApi) (w : World) (args0 args : Arguments)
    (hholder : args.holder = args0.holder)
    (hfree : (BatchImpl_freeImpl w args0).result = Outcome.ok JsValue.undefined) :
    unwrapPointer (BatchImpl_freeImpl w args0).world args.holder = 0 ∧
    BatchImpl_freeImpl (BatchImpl_freeImpl w args0).world args =
      ⟨Outcome.ok JsValue.undefined, (BatchImpl_freeImpl w args0).world⟩ ∧
    getOperationError api (BatchImpl_freeImpl w args0).world args =
      ⟨Outcome.fail Failure.nullDereference, (BatchImpl_freeImpl w args0).world⟩ ∧
    tryImmediateStartTransaction api (BatchImpl_freeImpl w args0).world args =
      ⟨Outcome.fail Failure.nullDereference, (BatchImpl_freeImpl w args0).world⟩ ∧
    readBlobResults api (BatchImpl_freeImpl w args0).world args =
      ⟨Outcome.fail Failure.nullDereference, (BatchImpl_freeImpl w args0).world⟩ := by
  obtain ⟨live, hw⟩ := BatchImpl_freeImpl_ok w args0 hfree
  have hnull : unwrapPointer (BatchImpl_freeImpl w args0).world args.holder = 0 := by
    rw [hw, hholder]
    by_cases hobj : args0.holder < w.heap.length
    · simp [unwrapPointer, List.getD_eq_getElem?_getD, List.getElem?_set, hobj]
    · simp [unwrapPointer, List.getD_eq_getElem?_getD, List.getElem?_set, hobj,
        List.getElem?_eq_none (not_lt.mp hobj)]
  refine ⟨hnull, ?_, ?_, ?_, ?_⟩
  · rw [BatchImpl_freeImpl_null _ args hnull, hw, hholder]
    simp
  · simp [getOperationError, hnull, access]
  · simp [tryImmediateStartTransaction, hnull, access]
  · simp [readBlobResults, hnull, access]

/-- The witness of C3 as amended: the freed wrapper of the example batch. -/
theorem after_free_operations_witness :
    (BatchImpl_freeImpl batchWorld ⟨0, [], false⟩).result = Outcome.ok JsValue.undefined ∧
    getOperationError exampleApi (BatchImpl_freeImpl batchWorld ⟨0, [], false⟩).world
        ⟨0, [JsValue.int 2], false⟩ =
      ⟨Outcome.fail Failure.nullDereference,
        (BatchImpl_freeImpl batchWorld ⟨0, [], false⟩).world⟩ :=
  ⟨by decide,
    (after_free_operations exampleApi batchWorld ⟨0, [], false⟩ ⟨0, [JsValue.int 2], false⟩
      rfl (by decide)).2.2.1⟩

/-- C8, at the failing input: `free()` on the wrapper of the example batch deletes the
batch and leaves the null pointer in the wrapper, but `delete` on the wrapper of the
example context deletes the context at address 12 and leaves address 12 in the wrapper. -/
theorem destroy_leaves_pointer :
    (unwrapPointer batchWorld 0 = 7 ∧
      (BatchImpl_freeImpl batchWorld ⟨0, [], false⟩).result = Outcome.ok JsValue.undefined ∧
      7 ∉ (BatchImpl_freeImpl batchWorld ⟨0, [], false⟩).world.live ∧
      unwrapPointer (BatchImpl_freeImpl batchWorld ⟨0, [], false⟩).world 0 = 0) ∧
    (unwrapPointer contextWorld 0 = 12 ∧ 12 ∈ contextWorld.live ∧
      (AsyncNdbContextEnvelope.call ContextMethod.delete contextWorld ⟨0, [], false⟩).result =
        Outcome.ok JsValue.undefined ∧
      12 ∉ (AsyncNdbContextEnvelope.call ContextMethod.delete contextWorld
        ⟨0, [], false⟩).world.live ∧
      unwrapPointer (AsyncNdbContextEnvelope.call ContextMethod.delete contextWorld
        ⟨0, [], false⟩).world 0 = 12) := by
  decide

/-- C7, the counterexample: on the wrapper of the example batch, `getOperationError`
and `readBlobResults` called with no argument, and `executeAsynch` called with no
argument, are not rejected: each invokes its native operation and returns a value. -/
theorem wrong_argument_count_not_rejected :
    getOperationError exampleApi batchWorld ⟨0, [], false⟩ =
      ⟨Outcome.ok (JsValue.bool true),
        batchWorld.log (Event.native NativeOp.getError 7 [0])⟩ ∧
    readBlobResults exampleApi batchWorld ⟨0, [], false⟩ =
      ⟨Outcome.ok JsValue.null,
        batchWorld.log (Event.native NativeOp.readBlobResults 7 [0])⟩ ∧
    executeAsynch none exampleApi batchWorld ⟨0, [], false⟩ =
      ⟨Outcome.ok (JsValue.int (-1)),
        batchWorld.log (Event.native NativeOp.executeAsynch 7 [0, 0, 0])⟩ ∧
    executeAsynch (some ErrorHandler.getNdbErrorIfLessThanZero) exampleApi batchWorld
        ⟨0, [], false⟩ =
      ⟨Outcome.ok (JsValue.int (-1)),
        batchWorld.log (Event.native NativeOp.executeAsynch 7 [0, 0, 0])⟩ := by
  decide

/-- C7, amended: `createAsyncNdbContext` called as a constructor, `shutdown`, `delete`
and `execute` reject a call with the wrong number of arguments with a MarshalError and
leave the state as it is: no native operation is invoked, no call descriptor is queued,
nothing is allocated. -/
theorem wrong_argument_count_rejected (base : Option ErrorHandler) (w : World)
    (args : Arguments) :
    (args.isConstructCall = true → args.Length ≠ 1 →
      AsyncNdbContextEnvelope.call ContextMethod.AsyncNdbContext w args =
        ⟨Outcome.fail Failure.marshalError, w⟩) ∧
    (args.Length ≠ 0 →
      AsyncNdbContextEnvelope.call ContextMethod.shutdown w args =
        ⟨Outcome.fail Failure.marshalError, w⟩) ∧
    (args.Length ≠ 0 →
      AsyncNdbContextEnvelope.call ContextMethod.delete w args =
        ⟨Outcome.fail Failure.marshalError, w⟩) ∧
    (args.Length ≠ 4 → execute base w args = ⟨Outcome.fail Failure.marshalError, w⟩) := by
  refine ⟨?_, ?_, ?_, ?_⟩
  · intro hc hn
    simp [AsyncNdbContextEnvelope.call, createAsyncNdbContext, REQUIRE_CONSTRUCTOR_CALL,
      REQUIRE_ARGS_LENGTH, hc, hn]
  · intro hn
    simp [AsyncNdbContextEnvelope.call, shutdown, REQUIRE_ARGS_LENGTH, hn]
  · intro hn
    simp [AsyncNdbContextEnvelope.call, destroy, REQUIRE_ARGS_LENGTH, hn]
  · intro hn
    simp [execute, REQUIRE_ARGS_LENGTH, hn]

/-- The witness of C7 as amended: a constructor call with no argument, `shutdown` and
`delete` with one argument, and `execute` with three arguments. -/
theorem wrong_argument_count_rejected_witness :
    createAsyncNdbContext emptyWorld ⟨0, [], true⟩ =
      ⟨Outcome.fail Failure.marshalError, emptyWorld⟩ ∧
    shutdown contextWorld ⟨0, [JsValue.int 1], false⟩ =
      ⟨Outcome.fail Failure.marshalError, contextWorld⟩ ∧
    destroy contextWorld ⟨0, [JsValue.int 1], false⟩ =
      ⟨Outcome.fail Failure.marshalError, contextWorld⟩ ∧
    execute none batchWorld ⟨0, [JsValue.int 2, JsValue.int 0, JsValue.int 1], false⟩ =
      ⟨Outcome.fail Failure.marshalError, batchWorld⟩ :=
  ⟨(wrong_argument_count_rejected none emptyWorld ⟨0, [], true⟩).1 rfl (by decide),
    (wrong_argument_count_rejected none contextWorld ⟨0, [JsValue.int 1], false⟩).2.1
      (by decide),
    (wrong_argument_count_rejected none contextWorld ⟨0, [JsValue.int 1], false⟩).2.2.1
      (by decide),
    (wrong_argument_count_rejected none batchWorld
      ⟨0, [JsValue.int 2, JsValue.int 0, JsValue.int 1], false⟩).2.2.2 (by decide)⟩

/-- The immediate call of `executeAsynch` on an allocated batch: the native call runs
once and its value is returned as an integer. -/
theorem executeAsynch_bound (base : Option ErrorHandler) (api : NativeApi) (w : World)
    (args : Arguments) (hbatch : access w (unwrapPointer w args.holder) = none) :
    executeAsynch base api w args =
      ⟨Outcome.ok (JsValue.int (api.executeAsynch (unwrapPointer w args.holder)
          (Int32Value (args.get 0)) (Int32Value (args.get 1)) (Int32Value (args.get 2))
          (args.get 3))),
        w.log (Event.native NativeOp.executeAsynch (unwrapPointer w args.holder)
          [Int32Value (args.get 0), Int32Value (args.get 1), Int32Value (args.get 2)])⟩ := by
  simp [executeAsynch, MethodCall.run, NativeMethodCall.new, hbatch, MethodCall.jsReturnVal]

/-- C6, the counterexample: the native calls of the example return -1; through `execute`
the callback receives the error of the batch, but `executeAsynch` returns the integer -1
to its caller, whichever error handler the base class starts with, and its descriptor
has the handler of the base class, not the one `execute` installs. -/
theorem executeAsynch_returns_negative_status :
    (completeAsync exampleApi (execute none batchWorld
        ⟨0, [JsValue.int 2, JsValue.int 0, JsValue.int 1, JsValue.function 5],
          false⟩).world).world.trace =
      [Event.native NativeOp.execute 7 [2, 0, 1],
        Event.native NativeOp.registerClosedTransaction 7 [],
        Event.callback (JsValue.function 5) (some ⟨266, 1, "deadlock"⟩) (-1)] ∧
    (executeAsynch none exampleApi batchWorld
        ⟨0, [JsValue.int 2, JsValue.int 0, JsValue.int 1, JsValue.function 5],
          false⟩).result = Outcome.ok (JsValue.int (-1)) ∧
    (executeAsynch (some ErrorHandler.getNdbErrorIfLessThanZero) exampleApi batchWorld
        ⟨0, [JsValue.int 2, JsValue.int 0, JsValue.int 1, JsValue.function 5],
          false⟩).result = Outcome.ok (JsValue.int (-1)) ∧
    (TxExecuteAndCloseCall.new none batchWorld
        ⟨0, [JsValue.int 2, JsValue.int 0, JsValue.int 1, JsValue.function 5],
          false⟩).errorHandler = some ErrorHandler.getNdbErrorIfLessThanZero ∧
    (NativeMethodCall.new none batchWorld
        ⟨0, [JsValue.int 2, JsValue.int 0, JsValue.int 1, JsValue.function 5],
          false⟩).errorHandler = none := by
  decide

/-- C6, amended: when the native call of an asynchronous `execute` on an allocated batch
returns a negative status, the completion callback receives the error that
`getNdbErrorIfLessThanZero` produces, the error of the batch, together with the status;
`executeAsynch` installs no error handler and returns the native status to its caller as
an integer, negative or not. -/
theorem negative_status_by_call_path (base : Option ErrorHandler) (api : NativeApi)
    (w : World) (args : Arguments) (hargs : args.Length = 4) (hpending : w.pending = [])
    (hbatch : access w (unwrapPointer w args.holder) = none)
    (hneg : api.execute (unwrapPointer w args.holder) (Int32Value (args.get 0))
      (Int32Value (args.get 1)) (Int32Value (args.get 2)) < 0) :
    (TxExecuteAndCloseCall.new base w args).errorHandler =
      some ErrorHandler.getNdbErrorIfLessThanZero ∧
    (completeAsync api (execute base w args).world).world.trace.getLast? =
      some (Event.callback (args.get 3)
        (ErrorHandler.getNdbErrorIfLessThanZero.apply api
          (api.execute (unwrapPointer w args.holder) (Int32Value (args.get 0))
            (Int32Value (args.get 1)) (Int32Value (args.get 2)))
          (unwrapPointer w args.holder))
        (api.execute (unwrapPointer w args.holder) (Int32Value (args.get 0))
          (Int32Value (args.get 1)) (Int32Value (args.get 2)))) ∧
    ErrorHandler.getNdbErrorIfLessThanZero.apply api
        (api.execute (unwrapPointer w args.holder) (Int32Value (args.get 0))
          (Int32Value (args.get 1)) (Int32Value (args.get 2)))
        (unwrapPointer w args.holder) =
      some (api.getNdbError (unwrapPointer w args.holder)) ∧
    (NativeMethodCall.new base w args).errorHandler = base ∧
    (executeAsynch base api w args).result =
      Outcome.ok (JsValue.int (api.executeAsynch (unwrapPointer w args.holder)
        (Int32Value (args.get 0)) (Int32Value (args.get 1)) (Int32Value (args.get 2))
        (args.get 3))) := by
  obtain ⟨-, htr⟩ := execute_then_complete base api w args hargs hpending hbatch
  refine ⟨by simp [TxExecuteAndCloseCall.new], ?_, by simp [ErrorHandler.apply, hneg],
    by simp [NativeMethodCall.new], by rw [executeAsynch_bound base api w args hbatch]⟩
  rw [htr, List.getLast?_concat]
  simp [ErrorHandler.apply, hneg]

/-- The witness of C6 as amended: a commit on the example batch, whose native execute
returns -1. -/
theorem negative_status_by_call_path_witness :
    (completeAsync exampleApi (execute none batchWorld
        ⟨0, [JsValue.int 2, JsValue.int 0, JsValue.int 1, JsValue.function 5],
          false⟩).world).world.trace.getLast? =
      some (Event.callback (JsValue.function 5) (some ⟨266, 1, "deadlock"⟩) (-1)) ∧
    (executeAsynch none exampleApi batchWorld
        ⟨0, [JsValue.int 2, JsValue.int 0, JsValue.int 1, JsValue.function 5],
          false⟩).result = Outcome.ok (JsValue.int (-1)) :=
  ⟨(negative_status_by_call_path none exampleApi batchWorld
      ⟨0, [JsValue.int 2, JsValue.int 0, JsValue.int 1, JsValue.function 5], false⟩
      (by decide) (by decide) (by decide) (by decide)).2.1,
    (negative_status_by_call_path none exampleApi batchWorld
      ⟨0, [JsValue.int 2, JsValue.int 0, JsValue.int 1, JsValue.function 5], false⟩
      (by decide) (by decide) (by decide) (by decide)).2.2.2.2⟩

/-- C9: with its four arguments `execute` returns undefined at once, whatever the native
library would return: it invokes no native operation and only queues the call, and the
native status reaches the callback at completion; `executeAsynch` on an allocated batch
returns the status of the native `executeAsynch` call, converted to an integer of the
runtime. -/
theorem execute_undefined_executeAsynch_status (base : Option ErrorHandler)
    (api : NativeApi) (w : World) (args : Arguments) (hargs : args.Length = 4)
    (hpending : w.pending = [])
    (hbatch : access w (unwrapPointer w args.holder) = none) :
    (execute base w args).result = Outcome.ok JsValue.undefined ∧
    (execute base w args).world.trace = w.trace ∧
    (execute base w args).world.pending = [TxExecuteAndCloseCall.new base w args] ∧
    (∃ error, (completeAsync api (execute base w args).world).world.trace.getLast? =
      some (Event.callback (args.get 3) error
        (api.execute (unwrapPointer w args.holder) (Int32Value (args.get 0))
          (Int32Value (args.get 1)) (Int32Value (args.get 2))))) ∧
    (executeAsynch base api w args).result =
      Outcome.ok (JsValue.int (api.executeAsynch (unwrapPointer w args.holder)
        (Int32Value (args.get 0)) (Int32Value (args.get 1)) (Int32Value (args.get 2))
        (args.get 3))) ∧
    (executeAsynch base api w args).world.trace =
      w.trace ++ [Event.native NativeOp.executeAsynch (unwrapPointer w args.holder)
        [Int32Value (args.get 0), Int32Value (args.get 1), Int32Value (args.get 2)]] := by
  obtain ⟨-, htr⟩ := execute_then_complete base api w args hargs hpending hbatch
  refine ⟨by rw [execute_of_four_args base w args hargs],
    by rw [execute_of_four_args base w args hargs],
    by rw [execute_of_four_args base w args hargs]; simp [hpending],
    ⟨_, by rw [htr, List.getLast?_concat]⟩,
    by rw [executeAsynch_bound base api w args hbatch],
    by rw [executeAsynch_bound base api w args hbatch]; rfl⟩

/-- The witness of C9: on the example batch `execute` returns undefined and
`executeAsynch` returns the native status -1. -/
theorem execute_undefined_executeAsynch_status_witness :
    (execute none batchWorld
        ⟨0, [JsValue.int 2, JsValue.int 0, JsValue.int 1, JsValue.function 5],
          false⟩).result = Outcome.ok JsValue.undefined ∧
    (executeAsynch none exampleApi batchWorld
        ⟨0, [JsValue.int 2, JsValue.int 0, JsValue.int 1, JsValue.function 5],
          false⟩).result =
      Outcome.ok (JsValue.int (exampleApi.executeAsynch (unwrapPointer batchWorld 0)
        (Int32Value (JsValue.int 2)) (Int32Value (JsValue.int 0))
        (Int32Value (JsValue.int 1)) (JsValue.function 5))) :=
  ⟨(execute_undefined_executeAsynch_status none exampleApi batchWorld
      ⟨0, [JsValue.int 2, JsValue.int 0, JsValue.int 1, JsValue.function 5], false⟩
      (by decide) (by decide) (by decide)).1,
    (execute_undefined_executeAsynch_status none exampleApi batchWorld
      ⟨0, [JsValue.int 2, JsValue.int 0, JsValue.int 1, JsValue.function 5], false⟩
      (by decide) (by decide) (by decide)).2.2.2.2.1⟩

end JonesNdb
